import Mathlib

/-!
Shallow embedding of the extraction-cascade scraper
(`src/backend/scraper.py`, with the legacy variant `src/scraper.py`),
together with proofs of the specification claims about it.

Browser/page effects are modelled by explicit environment records: each
Playwright query the code performs (selector lookups, attribute reads,
page title/content, parsed embedded-JSON blobs) becomes a field of a
page-state structure, and the Python functions become pure Lean
functions over those structures.  Python dictionaries with optional
keys become structures with `Option` fields; `list(set(xs))` becomes
`List.dedup` (the claims under study depend only on the set of
elements, never on the iteration order of a Python `set`).
-/

namespace TikTok

/-- Python's substring test `needle in hay`, on character lists. -/
def listContainsSub (needle : List Char) : List Char → Bool
  | [] => needle.isEmpty
  | c :: rest => needle.isPrefixOf (c :: rest) || listContainsSub needle rest

/-- Python's substring test `needle in hay` on strings. -/
def substrIn (needle hay : String) : Bool :=
  listContainsSub needle.toList hay.toList

/-- Python's `s.lower()`, character-wise. -/
def pyLower (s : String) : String :=
  String.mk (s.toList.map Char.toLower)

/-- The segment of `hay` before the first occurrence of the non-empty
separator `sep` (the whole string when `sep` is absent) — Python's
`hay.split(sep)[0]`. -/
def splitHeadList (sep : List Char) : List Char → List Char
  | [] => []
  | c :: rest =>
    if sep.isPrefixOf (c :: rest) && !sep.isEmpty then []
    else c :: splitHeadList sep rest

/-- Python's `hay.split(sep)[0]` on strings. -/
def pySplitHead (hay sep : String) : String :=
  String.mk (splitHeadList sep.toList hay.toList)

/-- Python's `s.strip()`: drop leading and trailing whitespace. -/
def pyStrip (s : String) : String :=
  String.mk (((s.toList.dropWhile Char.isWhitespace).reverse.dropWhile
    Char.isWhitespace).reverse)

/-- Maximal run of leading decimal digits (the greedy `\d+` capture). -/
def digitRun : List Char → List Char
  | [] => []
  | c :: rest => if c.isDigit then c :: digitRun rest else []

/-- Leftmost match of the regex `/video/(\d+)` over a character list:
scan left to right for `/video/` followed by at least one digit, and
capture the maximal digit run there. -/
def findVideoId : List Char → Option (List Char)
  | [] => none
  | c :: rest =>
    if ("/video/".toList).isPrefixOf (c :: rest) then
      match (c :: rest).drop 7 with
      | d :: ds => if d.isDigit then some (digitRun (d :: ds)) else findVideoId rest
      | [] => findVideoId rest
    else findVideoId rest

/-- `extract_tiktok_id` (src/backend/scraper.py:14-34): first
`/video/(\d+)` match in the URL, `none` when absent. -/
def extract_tiktok_id (url : String) : Option String :=
  (findVideoId url.toList).map fun cs => String.mk cs

example : extract_tiktok_id "https://www.tiktok.com/@user/video/1234567890" =
    some "1234567890" := by decide

example : extract_tiktok_id "https://www.tiktok.com/@user" = none := by decide

/-! ## Search resolver (`TikTokScraper.search_videos`, backend) -/

/-- Python's `s.replace(" ", rep)` — the only `replace` pattern the
scraper uses is the single space — replacing every space of `s` by
`rep`, character-wise. -/
def replaceSpaces (s : String) (rep : String) : String :=
  String.mk (go rep.toList s.toList)
where
  /-- Character-wise expansion of each space. -/
  go (rep : List Char) : List Char → List Char
    | [] => []
    | c :: rest => if c = ' ' then rep ++ go rep rest else c :: go rep rest

/-- The search-page URL built at src/backend/scraper.py:80-81
(spaces replaced by `%20`). -/
def search_url (keyword : String) : String :=
  "https://www.tiktok.com/search?q=" ++ replaceSpaces keyword "%20"

/-- The hashtag fallback URL built at src/backend/scraper.py:144-145
(spaces removed from the keyword). -/
def tag_url (keyword : String) : String :=
  "https://www.tiktok.com/tag/" ++ replaceSpaces keyword ""

/-- The href-collection loop (src/backend/scraper.py:129-134 and
161-165): keep each present `href` attribute containing `/video/`. -/
def collectLinks (els : List (Option String)) : List String :=
  els.filterMap fun h =>
    match h with
    | some href => if substrIn "/video/" href then some href else none
    | none => none

/-- What `search_videos` observed and produced: the page URLs it
navigated to, the returned link list, and whether the no-result debug
screenshot was taken. -/
structure SearchResult where
  visited : List String
  links : List String
  screenshotTaken : Bool
  deriving Repr, DecidableEq

/-- `TikTokScraper.search_videos` (src/backend/scraper.py:75-177).
`pages` maps a navigated URL to the `a[href*="/video/"]` elements'
`href` attributes found on that page.  Modal dismissal and scrolling
have no effect on the data model.  Navigation is recorded in
`visited`; `list(set(..))` is modelled by `List.dedup`. -/
def search_videos (pages : String → List (Option String)) (keyword : String)
    (limit : Nat) : SearchResult :=
  let u := search_url keyword
  let video_links := (collectLinks (pages u)).dedup
  if video_links.isEmpty then
    -- FALLBACK: HASHTAG SEARCH (src/backend/scraper.py:139-170)
    let tu := tag_url keyword
    let video_links := (video_links ++ collectLinks (pages tu)).dedup
    if video_links.isEmpty then
      { visited := [u, tu], links := [], screenshotTaken := true }
    else
      { visited := [u, tu], links := video_links.take limit, screenshotTaken := false }
  else
    { visited := [u], links := video_links.take limit, screenshotTaken := false }

/-! ## Extraction cascade (`TikTokScraper.scrape_video_details`, backend)

The `data` dictionary built by the function has optional, heterogeneous
entries; it is modelled by `VideoData` with `Option` fields (`none`
means the key is absent).  Engagement counters come either from
embedded JSON (Python `int`) or from DOM text (Python `str`), so a stat
value is a sum of the two. -/

/-- A Python stat value: `int` from embedded JSON, `str` from DOM text. -/
inductive StatVal where
  | int (n : Int)
  | str (s : String)
  deriving Repr, DecidableEq

/-- The `data['stats']` dictionary; `none` fields model absent keys
(the DOM fallback never writes a `shares` key). -/
structure StatsDict where
  views : Option StatVal
  likes : Option StatVal
  shares : Option StatVal
  comments : Option StatVal
  deriving Repr, DecidableEq

/-- The `stats` sub-object of an embedded-JSON item, each counter an
optional integer (`.get('playCount', 0)` defaults applied at use). -/
structure StatsJson where
  playCount : Option Int
  diggCount : Option Int
  shareCount : Option Int
  commentCount : Option Int
  deriving Repr, DecidableEq

/-- One `ItemModule` entry of the parsed `SIGI_STATE` blob
(src/backend/scraper.py:255-269): the fields the loop body reads. -/
structure SigiItem where
  desc : Option String
  author : Option String
  stats : Option StatsJson
  videoCover : Option String
  challenges : List (Option String)
  deriving Repr, DecidableEq

/-- The `itemStruct` of the parsed `__UNIVERSAL_DATA_FOR_REHYDRATION__`
blob (src/backend/scraper.py:273-292); the author handle sits under
`author.nickname` in this schema. -/
structure UnivItem where
  desc : Option String
  nickname : Option String
  stats : Option StatsJson
  videoCover : Option String
  challenges : List (Option String)
  deriving Repr, DecidableEq

/-- A comment container element: inner text of its
`p[data-e2e="comment-level-1__content"]` child and of its first `p`
child, when present (src/backend/scraper.py:373-379). -/
structure CommentEl where
  contentP : Option String
  anyP : Option String
  deriving Repr, DecidableEq

/-- Everything `scrape_video_details` reads from a loaded page: title,
raw HTML, the two embedded-state JSON blobs in already-parsed form
(`sigiItems = none` when the `SIGI_STATE` script/regex/JSON step fails,
`univItem = none` when the rehydration script is absent or its
`itemStruct` is empty — the code gates on its truthiness), and the
results of each DOM query the fallbacks perform (`none` = selector
matched nothing). -/
structure DetailPage where
  title : String
  content : String
  sigiItems : Option (List SigiItem)
  univItem : Option UnivItem
  metaDescription : Option String
  e2eDesc : Option String
  h1Text : Option String
  ogImage : Option String
  authorDetail : Option String
  usernameSpan : Option String
  likeCountEl : Option String
  commentCountEl : Option String
  tagLinkTexts : List String
  commentEls : List CommentEl
  commentContainers : List CommentEl
  allPs : List String
  deriving Repr, DecidableEq

/-- The `data` dictionary returned by `scrape_video_details`.  `none`
models an absent key; `screenshot` records whether the
`screenshot_base64` key was written. -/
structure VideoData where
  url : String
  screenshot : Bool
  description : Option String
  author : Option String
  stats : Option StatsDict
  thumbnail : Option String
  hashtags : Option (List (Option String))
  comments : List String
  deriving Repr, DecidableEq

/-- `data = {'url': url}` (src/backend/scraper.py:184). -/
def initData (url : String) : VideoData :=
  { url := url, screenshot := false, description := none, author := none,
    stats := none, thumbnail := none, hashtags := none, comments := [] }

/-- Python truthiness test `not data.get(key)` for an optional string
entry: true on an absent key and on the empty string. -/
def strFalsy : Option String → Bool
  | none => true
  | some s => s = ""

/-- `stats.get(k, 0)` for the four JSON counters
(src/backend/scraper.py:258-264 and 282-288): missing `stats` acts as
`{}`, missing counters default to integer 0. -/
def statsFromJson (stats : Option StatsJson) : StatsDict :=
  let s := stats.getD ⟨none, none, none, none⟩
  { views := some (.int (s.playCount.getD 0)),
    likes := some (.int (s.diggCount.getD 0)),
    shares := some (.int (s.shareCount.getD 0)),
    comments := some (.int (s.commentCount.getD 0)) }

/-- The `SIGI_STATE` extraction block (src/backend/scraper.py:250-269):
when the script parses, run the loop body on the first `ItemModule`
entry and `break`; an empty module runs the body zero times. -/
def sigiBlock (p : DetailPage) (data : VideoData) : VideoData :=
  match p.sigiItems with
  | none => data
  | some items =>
    match items with
    | [] => data
    | item :: _ =>
      { data with
        description := some (item.desc.getD (data.description.getD "")),
        author := some (item.author.getD (data.author.getD "")),
        stats := some (statsFromJson item.stats),
        thumbnail := some (item.videoCover.getD ""),
        hashtags := some item.challenges }

/-- The universal-data fallback block (src/backend/scraper.py:271-292):
attempted only when no `description` key exists yet, and only when the
rehydration blob yields a truthy `itemStruct`. -/
def univBlock (p : DetailPage) (data : VideoData) : VideoData :=
  if data.description = none then
    match p.univItem with
    | none => data
    | some item =>
      { data with
        description := some (item.desc.getD (data.description.getD "")),
        author := some (item.nickname.getD (data.author.getD "")),
        stats := some (statsFromJson item.stats),
        thumbnail := some (item.videoCover.getD ""),
        hashtags := some item.challenges }
  else data

/-- DOM/meta description fallback (src/backend/scraper.py:299-323):
meta description stripped at " on TikTok", else page title (segment
before "|", stripped), else the description element / `h1`, else the
literal marker. -/
def descFallback (p : DetailPage) (data : VideoData) : VideoData :=
  if strFalsy data.description then
    let data :=
      match p.metaDescription with
      | some c => { data with description := some (pySplitHead c " on TikTok") }
      | none => data
    let data :=
      if strFalsy data.description then
        let fromTitle :=
          if substrIn "|" p.title then pyStrip (pySplitHead p.title "|")
          else p.title
        { data with description := some fromTitle }
      else data
    let data :=
      if strFalsy data.description then
        let fromDom := ((p.e2eDesc).orElse fun _ => p.h1Text).getD "No description found"
        { data with description := some fromDom }
      else data
    data
  else data

/-- OpenGraph thumbnail fallback (src/backend/scraper.py:326-332). -/
def thumbFallback (p : DetailPage) (data : VideoData) : VideoData :=
  if strFalsy data.thumbnail then
    match p.ogImage with
    | some img => { data with thumbnail := some img }
    | none => data
  else data

/-- DOM author fallback (src/backend/scraper.py:335-340). -/
def authorFallback (p : DetailPage) (data : VideoData) : VideoData :=
  if strFalsy data.author then
    let a := ((p.authorDetail).orElse fun _ => p.usernameSpan).getD "Unknown Author"
    { data with author := some a }
  else data

/-- DOM stats fallback (src/backend/scraper.py:343-354): only when no
`stats` key exists; like/comment counts as element text else `"N/A"`,
views always `"N/A"`, no `shares` key written. -/
def statsFallback (p : DetailPage) (data : VideoData) : VideoData :=
  if data.stats = none then
    let st : StatsDict :=
      { likes := some (.str (p.likeCountEl.getD "N/A")),
        comments := some (.str (p.commentCountEl.getD "N/A")),
        views := some (.str "N/A"),
        shares := none }
    { data with stats := some st }
  else data

/-- DOM hashtag fallback (src/backend/scraper.py:357-362): only when no
`hashtags` key exists; inner texts of `a[href*="/tag/"]` anchors. -/
def hashtagFallback (p : DetailPage) (data : VideoData) : VideoData :=
  if data.hashtags = none then
    { data with hashtags := some (p.tagLinkTexts.map some) }
  else data

/-- The whole DOM/meta fallback section (src/backend/scraper.py:297-362)
in source order. -/
def domFallbacks (p : DetailPage) (data : VideoData) : VideoData :=
  hashtagFallback p (statsFallback p (authorFallback p (thumbFallback p (descFallback p data))))

/-- The comment harvester (src/backend/scraper.py:364-388): structured
selector, else broader container selector, over the first 20 elements,
keeping each element's content-`p` (else first `p`) text unless it
holds the "trouble playing" placeholder; if that yields nothing, scan
the first 20 generic `p` elements keeping texts of length in (5, 200)
without the placeholder. -/
def harvestComments (p : DetailPage) : List String :=
  let comment_elements :=
    if p.commentEls.isEmpty then p.commentContainers else p.commentEls
  let comments := (comment_elements.take 20).filterMap fun el =>
    match (el.contentP).orElse fun _ => el.anyP with
    | some text => if substrIn "trouble playing" text then none else some text
    | none => none
  if comments.isEmpty then
    (p.allPs.take 20).filterMap fun text =>
      if 5 < text.length ∧ text.length < 200 ∧ ¬ substrIn "trouble playing" text
      then some text else none
  else comments

/-! ### Navigation/retry loop (src/backend/scraper.py:185-244)

One attempt = one `page.goto`.  Per attempt the environment says
whether the attempt body raised (`navErr`) and, otherwise, which page
state was loaded (`attempts k`).  The bot-challenge test is
`"verify" in await page.title() or "captcha" in content.lower()`. -/

/-- Bot-challenge marker check (src/backend/scraper.py:234). -/
def isCaptcha (p : DetailPage) : Bool :=
  substrIn "verify" p.title || substrIn "captcha" (pyLower p.content)

/-- Environment of one `scrape_video_details` call: the page state
loaded by the k-th navigation attempt, and whether that attempt's body
raised an exception. -/
structure DetailEnv where
  attempts : Nat → DetailPage
  navErr : Nat → Bool

/-- Outcome of the `for attempt in range(max_retries + 1)` loop:
`returnNone` = the function returned `None` (exception on the final
attempt); `finished k shot` = the loop ended (by `break`, or by
exhausting the range through captcha `continue`s) with the page of
attempt `k` loaded and `shot` recording whether a screenshot was
captured. -/
inductive NavResult where
  | returnNone (attemptsMade : Nat)
  | finished (k : Nat) (shot : Bool) (attemptsMade : Nat)
  deriving Repr, DecidableEq

/-- The retry loop over the attempt indices `ks` (initially
`[0, ..., max_retries]`): an exception retries unless the index equals
`max_retries` (then `return None`); a detected challenge sleeps and
`continue`s; otherwise `break`.  When the range is exhausted by
`continue`s, control falls through with the last navigated page. -/
def navLoop (env : DetailEnv) (max_retries : Nat) :
    List Nat → Bool → Nat → NavResult
  | [], shot, made =>
    -- range exhausted without break: fall through to extraction;
    -- the page still holds the content of attempt `max_retries`.
    .finished max_retries shot made
  | k :: rest, shot, made =>
    if env.navErr k then
      if k = max_retries then .returnNone (made + 1)
      else navLoop env max_retries rest shot (made + 1)
    else if isCaptcha (env.attempts k) then
      navLoop env max_retries rest true (made + 1)
    else
      .finished k true (made + 1)

/-- The `data` dictionary after the primary (SIGI) strategy ran on the
loaded page. -/
def primaryData (p : DetailPage) (url : String) (shot : Bool) : VideoData :=
  sigiBlock p { initData url with screenshot := shot }

/-- The `data` dictionary after the secondary (universal-data) strategy
also ran. -/
def secondaryData (p : DetailPage) (url : String) (shot : Bool) : VideoData :=
  univBlock p (primaryData p url shot)

/-- The `data` dictionary after the whole extraction cascade (both JSON
strategies, then the DOM/meta fallbacks). -/
def finalData (p : DetailPage) (url : String) (shot : Bool) : VideoData :=
  domFallbacks p (secondaryData p url shot)

/-- `TikTokScraper.scrape_video_details`
(src/backend/scraper.py:179-391): run the retry loop with
`max_retries = 2`; on `return None` report `none`, otherwise run the
JSON cascade, the DOM/meta fallbacks and the comment harvester on the
loaded page.  Also returns the number of navigation attempts
performed. -/
def scrape_video_details (env : DetailEnv) (url : String) :
    Option VideoData × Nat :=
  let max_retries := 2
  match navLoop env max_retries (List.range (max_retries + 1)) false 0 with
  | .returnNone made => (none, made)
  | .finished k shot made =>
    let p := env.attempts k
    (some { finalData p url shot with comments := harvestComments p }, made)

/-! ## Session teardown (`TikTokScraper.stop`, src/backend/scraper.py:67-73) -/

/-- Which components of a `TikTokScraper` session are live (non-`None`):
`context`, `browser`, `playwright` are each set by `start()` and `None`
on a never-started scraper. -/
structure Session where
  context : Bool
  browser : Bool
  playwright : Bool
  deriving Repr, DecidableEq

/-- `TikTokScraper.stop` (src/backend/scraper.py:67-73): close context,
browser, then the playwright driver, each only if it exists.  Returns
the ordered list of teardown actions performed. -/
def stop (s : Session) : List String :=
  (if s.context then ["context.close"] else []) ++
    (if s.browser then ["browser.close"] else []) ++
      (if s.playwright then ["playwright.stop"] else [])

/-! ## Orchestrator (`scrape_and_save`, src/backend/scraper.py:394-504) -/

/-- The `video_record` dictionary built at
src/backend/scraper.py:457-469 (an insert payload for the persistence
collaborator; the screenshot blob is modelled by its presence bit). -/
structure VideoRecordDb where
  tiktok_id : String
  url : String
  author_username : String
  description : String
  views_count : Int
  likes_count : Int
  shares_count : Int
  comments_count : Int
  hashtags : List (Option String)
  screenshot : Bool
  search_keyword : String
  deriving Repr, DecidableEq

/-- `int(x) if isinstance(x, int) else 0` applied to
`video_data.get("stats", {}).get(k, 0)`: a JSON integer passes
through, a DOM display string (or a missing stats dict / counter key,
whose `.get` default `0` is an int) yields 0. -/
def statCoerce (v : Option StatVal) : Int :=
  match v with
  | some (.int n) => n
  | some (.str _) => 0
  | none => 0

/-- Builds the `video_record` insert payload
(src/backend/scraper.py:457-469) from a `scrape_video_details`
result. -/
def build_video_record (keyword tiktok_id url : String) (vd : VideoData) :
    VideoRecordDb :=
  { tiktok_id := tiktok_id,
    url := url,
    author_username := vd.author.getD "Unknown",
    description := vd.description.getD "",
    views_count := statCoerce (vd.stats.bind fun st => st.views),
    likes_count := statCoerce (vd.stats.bind fun st => st.likes),
    shares_count := statCoerce (vd.stats.bind fun st => st.shares),
    comments_count := statCoerce (vd.stats.bind fun st => st.comments),
    hashtags := vd.hashtags.getD [],
    screenshot := vd.screenshot,
    search_keyword := keyword }

/-- External collaborators and page environments seen by one
`scrape_and_save` run: the resolver's page contents, whether the
resolver raised a navigation-fatal exception, the per-URL outcome of
`scrape_video_details` (`none` in the `Option` = returned `None`;
`raisedAt url = true` = the call raised), the persistence lookup
(`get_video_by_tiktok_id`, which swallows its own errors) and insert
(`insert_video`, `none` on failure). -/
structure OrchEnv where
  pages : String → List (Option String)
  searchErr : Bool
  details : String → Option VideoData
  raisedAt : String → Bool
  lookup : String → Option String
  insert_video : VideoRecordDb → Option String

/-- Mutable state of the per-URL loop (src/backend/scraper.py:429-492),
extended with a trace of the persistence calls performed. -/
structure LoopState where
  scraped : Nat
  skipped : Nat
  video_ids : List String
  inserts : List VideoRecordDb
  commentInserts : List (String × Nat)
  deriving Repr, DecidableEq

/-- The loop state at entry to the loop. -/
def initLoopState : LoopState :=
  { scraped := 0, skipped := 0, video_ids := [], inserts := [], commentInserts := [] }

/-- One iteration of the per-URL loop (src/backend/scraper.py:433-492).
Returns the new state and whether the iteration raised (an exception
from `scrape_video_details` propagates out of the loop). -/
def processUrl (env : OrchEnv) (keyword : String) (st : LoopState)
    (url : String) : LoopState × Bool :=
  match extract_tiktok_id url with
  | none => (st, false)            -- could not extract ID: continue
  | some tiktok_id =>
    match env.lookup tiktok_id with
    | some existingId =>           -- already exists: skip
      ({ st with skipped := st.skipped + 1,
                 video_ids := st.video_ids ++ [existingId] }, false)
    | none =>
      if env.raisedAt url then (st, true)
      else
        match env.details url with
        | none => (st, false)      -- failed to scrape: continue
        | some vd =>
          let record := build_video_record keyword tiktok_id url vd
          let st := { st with inserts := st.inserts ++ [record] }
          match env.insert_video record with
          | some video_id =>
            let st := { st with scraped := st.scraped + 1,
                                video_ids := st.video_ids ++ [video_id] }
            if vd.comments.isEmpty then (st, false)
            else
              ({ st with commentInserts :=
                  st.commentInserts ++ [(video_id, vd.comments.length)] }, false)
          | none => (st, false)    -- failed to save: continue


/-- The per-URL loop folded over the candidate list; stops early when
an iteration raises. -/
def processUrls (env : OrchEnv) (keyword : String) :
    List String → LoopState → LoopState × Bool
  | [], st => (st, false)
  | url :: rest, st =>
    match processUrl env keyword st url with
    | (st', true) => (st', true)
    | (st', false) => processUrls env keyword rest st'

/-- The summary dictionary returned by `scrape_and_save`
(src/backend/scraper.py:421-427 and 494-500). -/
structure Summary where
  keyword : String
  found : Nat
  scraped : Nat
  skipped : Nat
  video_ids : List String
  deriving Repr, DecidableEq

/-- Observable outcome of one `scrape_and_save` run: the returned
summary (`none` when an exception propagated to the caller), the
persistence calls performed, and how many times `scraper.stop()` was
invoked by the `finally` clause. -/
structure RunResult where
  summary : Option Summary
  inserts : List VideoRecordDb
  commentInserts : List (String × Nat)
  stops : Nat
  deriving Repr, DecidableEq

/-- `scrape_and_save` (src/backend/scraper.py:394-504).  When no
scraper is passed in (`haveScraper = false`) the function creates and
starts its own and sets `close_scraper`, whose `finally` clause calls
`stop()` on every exit path: the resolver raising, the early return on
zero candidates, an exception from the per-URL loop, and the normal
return. -/
def scrape_and_save (env : OrchEnv) (keyword : String) (max_videos : Nat)
    (haveScraper : Bool) : RunResult :=
  let close_scraper := !haveScraper
  let stops := if close_scraper then 1 else 0
  if env.searchErr then
    { summary := none, inserts := [], commentInserts := [], stops := stops }
  else
    let video_urls := (search_videos env.pages keyword max_videos).links
    if video_urls.isEmpty then
      { summary := some { keyword := keyword, found := 0, scraped := 0,
                          skipped := 0, video_ids := [] },
        inserts := [], commentInserts := [], stops := stops }
    else
      match processUrls env keyword video_urls initLoopState with
      | (st, true) =>
        { summary := none, inserts := st.inserts,
          commentInserts := st.commentInserts, stops := stops }
      | (st, false) =>
        { summary := some { keyword := keyword, found := video_urls.length,
                            scraped := st.scraped, skipped := st.skipped,
                            video_ids := st.video_ids },
          inserts := st.inserts, commentInserts := st.commentInserts,
          stops := stops }

/-! ## Legacy resolver (`TikTokScraper.search_videos`, src/scraper.py:39-72)

The top-level Streamlit variant of the resolver.  After the initial
bounded selector wait it enters `while len(video_links) < limit`,
re-querying the link elements and scrolling; the page state visible
after `n` scrolls is `pages n`.  The loop has no iteration bound, so
the embedding carries explicit fuel: a `none` result means the loop is
still running after `fuel` iterations. -/

/-- The inner collection loop (src/scraper.py:59-65): append each new
href containing `/video/`, breaking as soon as `limit` is reached. -/
def legacy_collect (limit : Nat) : List (Option String) → List String → List String
  | [], acc => acc
  | el :: rest, acc =>
    match el with
    | some href =>
      if substrIn "/video/" href && !(acc.contains href) then
        let acc := acc ++ [href]
        if limit ≤ acc.length then acc else legacy_collect limit rest acc
      else legacy_collect limit rest acc
    | none => legacy_collect limit rest acc

/-- The `while len(video_links) < limit` loop (src/scraper.py:58-69),
with explicit fuel.  Each pass collects from the currently visible
elements and, if still short, scrolls (advancing the page state) and
repeats. -/
def legacy_loop (pages : Nat → List (Option String)) (limit : Nat) :
    Nat → Nat → List String → Option (List String)
  | 0, _, _ => none
  | fuel + 1, scrolls, acc =>
    if acc.length < limit then
      let acc' := legacy_collect limit (pages scrolls) acc
      if acc'.length < limit then legacy_loop pages limit fuel (scrolls + 1) acc'
      else legacy_loop pages limit fuel scrolls acc'
    else some acc

/-- Environment of one legacy `search_videos` call: whether the initial
bounded `wait_for_selector` succeeded, and the link elements visible
after each number of scrolls. -/
structure LegacyEnv where
  waitFound : Bool
  pages : Nat → List (Option String)

/-- Legacy `TikTokScraper.search_videos` (src/scraper.py:39-72): on a
selector-wait timeout it screenshots and returns `[]`; otherwise it
runs the unbounded collection loop and truncates.  `none` = the call
has not returned after `fuel` loop iterations. -/
def legacy_search_videos (env : LegacyEnv) (limit fuel : Nat) :
    Option (List String) :=
  if !env.waitFound then some []
  else (legacy_loop env.pages limit fuel 0 []).map fun l => l.take limit


/-! ## Lemmas about the DOM/meta fallbacks -/

/-- `descFallback` only ever writes the `description` entry. -/
theorem descFallback_shape (p : DetailPage) (d : VideoData) :
    ∃ v, descFallback p d = { d with description := v } := by
  unfold descFallback
  split
  · cases p.metaDescription <;> dsimp only
    all_goals repeat' split
    all_goals exact ⟨_, rfl⟩
  · exact ⟨d.description, rfl⟩

/-- `thumbFallback` only ever writes the `thumbnail` entry. -/
theorem thumbFallback_shape (p : DetailPage) (d : VideoData) :
    ∃ v, thumbFallback p d = { d with thumbnail := v } := by
  unfold thumbFallback
  split
  · cases p.ogImage <;> exact ⟨_, rfl⟩
  · exact ⟨d.thumbnail, rfl⟩

/-- `authorFallback` only ever writes the `author` entry. -/
theorem authorFallback_shape (p : DetailPage) (d : VideoData) :
    ∃ v, authorFallback p d = { d with author := v } := by
  unfold authorFallback
  split
  · exact ⟨_, rfl⟩
  · exact ⟨d.author, rfl⟩

/-- `statsFallback` only ever writes the `stats` entry. -/
theorem statsFallback_shape (p : DetailPage) (d : VideoData) :
    ∃ v, statsFallback p d = { d with stats := v } := by
  unfold statsFallback
  split
  · exact ⟨_, rfl⟩
  · exact ⟨d.stats, rfl⟩

/-- `hashtagFallback` only ever writes the `hashtags` entry. -/
theorem hashtagFallback_shape (p : DetailPage) (d : VideoData) :
    ∃ v, hashtagFallback p d = { d with hashtags := v } := by
  unfold hashtagFallback
  split
  · exact ⟨_, rfl⟩
  · exact ⟨d.hashtags, rfl⟩

/-- A populated (truthy) description suppresses the description
fallback entirely. -/
theorem descFallback_id (p : DetailPage) (d : VideoData)
    (h : strFalsy d.description = false) : descFallback p d = d := by
  unfold descFallback
  simp [h]

/-- A populated thumbnail suppresses the OpenGraph fallback. -/
theorem thumbFallback_id (p : DetailPage) (d : VideoData)
    (h : strFalsy d.thumbnail = false) : thumbFallback p d = d := by
  unfold thumbFallback
  simp [h]

/-- A populated author suppresses the DOM author fallback. -/
theorem authorFallback_id (p : DetailPage) (d : VideoData)
    (h : strFalsy d.author = false) : authorFallback p d = d := by
  unfold authorFallback
  simp [h]

/-- An existing `stats` key suppresses the DOM stats fallback. -/
theorem statsFallback_id (p : DetailPage) (d : VideoData)
    (h : d.stats.isSome = true) : statsFallback p d = d := by
  unfold statsFallback
  rw [if_neg]
  exact fun hh => by simp [hh] at h

/-- An existing `hashtags` key suppresses the DOM hashtag fallback. -/
theorem hashtagFallback_id (p : DetailPage) (d : VideoData)
    (h : d.hashtags.isSome = true) : hashtagFallback p d = d := by
  unfold hashtagFallback
  rw [if_neg]
  exact fun hh => by simp [hh] at h

/-- Projection corollaries of the shape lemmas: each fallback leaves
every other entry of the record untouched. -/
theorem descFallback_author (p : DetailPage) (d : VideoData) :
    (descFallback p d).author = d.author := by
  obtain ⟨v, hv⟩ := descFallback_shape p d
  rw [hv]

theorem descFallback_thumbnail (p : DetailPage) (d : VideoData) :
    (descFallback p d).thumbnail = d.thumbnail := by
  obtain ⟨v, hv⟩ := descFallback_shape p d
  rw [hv]

theorem descFallback_stats (p : DetailPage) (d : VideoData) :
    (descFallback p d).stats = d.stats := by
  obtain ⟨v, hv⟩ := descFallback_shape p d
  rw [hv]

theorem descFallback_hashtags (p : DetailPage) (d : VideoData) :
    (descFallback p d).hashtags = d.hashtags := by
  obtain ⟨v, hv⟩ := descFallback_shape p d
  rw [hv]

theorem thumbFallback_description (p : DetailPage) (d : VideoData) :
    (thumbFallback p d).description = d.description := by
  obtain ⟨v, hv⟩ := thumbFallback_shape p d
  rw [hv]

theorem thumbFallback_author (p : DetailPage) (d : VideoData) :
    (thumbFallback p d).author = d.author := by
  obtain ⟨v, hv⟩ := thumbFallback_shape p d
  rw [hv]

theorem thumbFallback_stats (p : DetailPage) (d : VideoData) :
    (thumbFallback p d).stats = d.stats := by
  obtain ⟨v, hv⟩ := thumbFallback_shape p d
  rw [hv]

theorem thumbFallback_hashtags (p : DetailPage) (d : VideoData) :
    (thumbFallback p d).hashtags = d.hashtags := by
  obtain ⟨v, hv⟩ := thumbFallback_shape p d
  rw [hv]

theorem authorFallback_description (p : DetailPage) (d : VideoData) :
    (authorFallback p d).description = d.description := by
  obtain ⟨v, hv⟩ := authorFallback_shape p d
  rw [hv]

theorem authorFallback_thumbnail (p : DetailPage) (d : VideoData) :
    (authorFallback p d).thumbnail = d.thumbnail := by
  obtain ⟨v, hv⟩ := authorFallback_shape p d
  rw [hv]

theorem authorFallback_stats (p : DetailPage) (d : VideoData) :
    (authorFallback p d).stats = d.stats := by
  obtain ⟨v, hv⟩ := authorFallback_shape p d
  rw [hv]

theorem authorFallback_hashtags (p : DetailPage) (d : VideoData) :
    (authorFallback p d).hashtags = d.hashtags := by
  obtain ⟨v, hv⟩ := authorFallback_shape p d
  rw [hv]

theorem statsFallback_description (p : DetailPage) (d : VideoData) :
    (statsFallback p d).description = d.description := by
  obtain ⟨v, hv⟩ := statsFallback_shape p d
  rw [hv]

theorem statsFallback_author (p : DetailPage) (d : VideoData) :
    (statsFallback p d).author = d.author := by
  obtain ⟨v, hv⟩ := statsFallback_shape p d
  rw [hv]

theorem statsFallback_thumbnail (p : DetailPage) (d : VideoData) :
    (statsFallback p d).thumbnail = d.thumbnail := by
  obtain ⟨v, hv⟩ := statsFallback_shape p d
  rw [hv]

theorem statsFallback_hashtags (p : DetailPage) (d : VideoData) :
    (statsFallback p d).hashtags = d.hashtags := by
  obtain ⟨v, hv⟩ := statsFallback_shape p d
  rw [hv]

theorem hashtagFallback_description (p : DetailPage) (d : VideoData) :
    (hashtagFallback p d).description = d.description := by
  obtain ⟨v, hv⟩ := hashtagFallback_shape p d
  rw [hv]

theorem hashtagFallback_author (p : DetailPage) (d : VideoData) :
    (hashtagFallback p d).author = d.author := by
  obtain ⟨v, hv⟩ := hashtagFallback_shape p d
  rw [hv]

theorem hashtagFallback_thumbnail (p : DetailPage) (d : VideoData) :
    (hashtagFallback p d).thumbnail = d.thumbnail := by
  obtain ⟨v, hv⟩ := hashtagFallback_shape p d
  rw [hv]

theorem hashtagFallback_stats (p : DetailPage) (d : VideoData) :
    (hashtagFallback p d).stats = d.stats := by
  obtain ⟨v, hv⟩ := hashtagFallback_shape p d
  rw [hv]

/-- A populated description survives the whole DOM/meta fallback
section. -/
theorem domFallbacks_description (p : DetailPage) (d : VideoData)
    (h : strFalsy d.description = false) :
    (domFallbacks p d).description = d.description := by
  unfold domFallbacks
  rw [descFallback_id p d h, hashtagFallback_description,
    statsFallback_description, authorFallback_description,
    thumbFallback_description]

/-- A populated author survives the whole DOM/meta fallback section. -/
theorem domFallbacks_author (p : DetailPage) (d : VideoData)
    (h : strFalsy d.author = false) :
    (domFallbacks p d).author = d.author := by
  unfold domFallbacks
  rw [hashtagFallback_author, statsFallback_author]
  have hgate : strFalsy (thumbFallback p (descFallback p d)).author = false := by
    rw [thumbFallback_author, descFallback_author]
    exact h
  rw [authorFallback_id p _ hgate, thumbFallback_author, descFallback_author]

/-- A populated thumbnail survives the whole DOM/meta fallback
section. -/
theorem domFallbacks_thumbnail (p : DetailPage) (d : VideoData)
    (h : strFalsy d.thumbnail = false) :
    (domFallbacks p d).thumbnail = d.thumbnail := by
  unfold domFallbacks
  rw [hashtagFallback_thumbnail, statsFallback_thumbnail,
    authorFallback_thumbnail]
  have hgate : strFalsy (descFallback p d).thumbnail = false := by
    rw [descFallback_thumbnail]
    exact h
  rw [thumbFallback_id p _ hgate, descFallback_thumbnail]

/-- An existing `stats` entry survives the whole DOM/meta fallback
section. -/
theorem domFallbacks_stats (p : DetailPage) (d : VideoData)
    (h : d.stats.isSome = true) :
    (domFallbacks p d).stats = d.stats := by
  unfold domFallbacks
  rw [hashtagFallback_stats]
  have hgate :
      (authorFallback p (thumbFallback p (descFallback p d))).stats.isSome = true := by
    rw [authorFallback_stats, thumbFallback_stats, descFallback_stats]
    exact h
  rw [statsFallback_id p _ hgate, authorFallback_stats, thumbFallback_stats,
    descFallback_stats]

/-- An existing `hashtags` entry survives the whole DOM/meta fallback
section. -/
theorem domFallbacks_hashtags (p : DetailPage) (d : VideoData)
    (h : d.hashtags.isSome = true) :
    (domFallbacks p d).hashtags = d.hashtags := by
  unfold domFallbacks
  have hgate :
      (statsFallback p (authorFallback p (thumbFallback p (descFallback p d)))).hashtags.isSome = true := by
    rw [statsFallback_hashtags, authorFallback_hashtags, thumbFallback_hashtags,
      descFallback_hashtags]
    exact h
  rw [hashtagFallback_id p _ hgate, statsFallback_hashtags,
    authorFallback_hashtags, thumbFallback_hashtags, descFallback_hashtags]

/-- Once a `description` key exists, the secondary JSON strategy is
skipped entirely. -/
theorem univBlock_id (p : DetailPage) (d : VideoData)
    (h : d.description.isSome = true) : univBlock p d = d := by
  unfold univBlock
  rw [if_neg fun hh => by simp [hh] at h]

/-- Either the primary strategy found an item (and then it certainly
wrote a `description` key), or it left the record untouched. -/
theorem primaryData_cases (p : DetailPage) (url : String) (shot : Bool) :
    (primaryData p url shot).description.isSome = true ∨
      primaryData p url shot = { initData url with screenshot := shot } := by
  cases hp : p.sigiItems with
  | none =>
    right
    unfold primaryData sigiBlock
    rw [hp]
  | some items =>
    cases items with
    | nil =>
      right
      unfold primaryData sigiBlock
      rw [hp]
    | cons item rest =>
      left
      unfold primaryData sigiBlock
      rw [hp]
      rfl

/-- C1 — first-writer-wins per field in the extraction cascade of
`scrape_video_details`: a field populated by the primary embedded-state
JSON strategy (non-empty for the string fields, key-present for
`stats`/`hashtags`) is left unchanged by the secondary JSON strategy
and by the DOM/meta fallback, and a field populated by the secondary
strategy is left unchanged by the DOM/meta fallback; in particular a
non-empty primary description survives to the final record. -/
theorem cascade_first_writer_wins (p : DetailPage) (url : String) (shot : Bool) :
    (strFalsy (primaryData p url shot).description = false →
      (secondaryData p url shot).description = (primaryData p url shot).description ∧
        (finalData p url shot).description = (primaryData p url shot).description) ∧
    (strFalsy (primaryData p url shot).author = false →
      (secondaryData p url shot).author = (primaryData p url shot).author ∧
        (finalData p url shot).author = (primaryData p url shot).author) ∧
    (strFalsy (primaryData p url shot).thumbnail = false →
      (secondaryData p url shot).thumbnail = (primaryData p url shot).thumbnail ∧
        (finalData p url shot).thumbnail = (primaryData p url shot).thumbnail) ∧
    ((primaryData p url shot).stats.isSome = true →
      (secondaryData p url shot).stats = (primaryData p url shot).stats ∧
        (finalData p url shot).stats = (primaryData p url shot).stats) ∧
    ((primaryData p url shot).hashtags.isSome = true →
      (secondaryData p url shot).hashtags = (primaryData p url shot).hashtags ∧
        (finalData p url shot).hashtags = (primaryData p url shot).hashtags) ∧
    (strFalsy (secondaryData p url shot).description = false →
      (finalData p url shot).description = (secondaryData p url shot).description) ∧
    (strFalsy (secondaryData p url shot).author = false →
      (finalData p url shot).author = (secondaryData p url shot).author) ∧
    (strFalsy (secondaryData p url shot).thumbnail = false →
      (finalData p url shot).thumbnail = (secondaryData p url shot).thumbnail) ∧
    ((secondaryData p url shot).stats.isSome = true →
      (finalData p url shot).stats = (secondaryData p url shot).stats) ∧
    ((secondaryData p url shot).hashtags.isSome = true →
      (finalData p url shot).hashtags = (secondaryData p url shot).hashtags) := by
  refine ⟨?_, ?_, ?_, ?_, ?_, ?_, ?_, ?_, ?_, ?_⟩
  · intro h
    rcases primaryData_cases p url shot with hds | htriv
    · have h2 : secondaryData p url shot = primaryData p url shot :=
        univBlock_id p _ hds
      refine ⟨by rw [h2], ?_⟩
      show (domFallbacks p (secondaryData p url shot)).description = _
      rw [h2]
      exact domFallbacks_description p _ h
    · rw [htriv] at h
      simp [initData, strFalsy] at h
  · intro h
    rcases primaryData_cases p url shot with hds | htriv
    · have h2 : secondaryData p url shot = primaryData p url shot :=
        univBlock_id p _ hds
      refine ⟨by rw [h2], ?_⟩
      show (domFallbacks p (secondaryData p url shot)).author = _
      rw [h2]
      exact domFallbacks_author p _ h
    · rw [htriv] at h
      simp [initData, strFalsy] at h
  · intro h
    rcases primaryData_cases p url shot with hds | htriv
    · have h2 : secondaryData p url shot = primaryData p url shot :=
        univBlock_id p _ hds
      refine ⟨by rw [h2], ?_⟩
      show (domFallbacks p (secondaryData p url shot)).thumbnail = _
      rw [h2]
      exact domFallbacks_thumbnail p _ h
    · rw [htriv] at h
      simp [initData, strFalsy] at h
  · intro h
    rcases primaryData_cases p url shot with hds | htriv
    · have h2 : secondaryData p url shot = primaryData p url shot :=
        univBlock_id p _ hds
      refine ⟨by rw [h2], ?_⟩
      show (domFallbacks p (secondaryData p url shot)).stats = _
      rw [h2]
      exact domFallbacks_stats p _ h
    · rw [htriv] at h
      simp [initData] at h
  · intro h
    rcases primaryData_cases p url shot with hds | htriv
    · have h2 : secondaryData p url shot = primaryData p url shot :=
        univBlock_id p _ hds
      refine ⟨by rw [h2], ?_⟩
      show (domFallbacks p (secondaryData p url shot)).hashtags = _
      rw [h2]
      exact domFallbacks_hashtags p _ h
    · rw [htriv] at h
      simp [initData] at h
  · exact fun h => domFallbacks_description p _ h
  · exact fun h => domFallbacks_author p _ h
  · exact fun h => domFallbacks_thumbnail p _ h
  · exact fun h => domFallbacks_stats p _ h
  · exact fun h => domFallbacks_hashtags p _ h

/-- The primary-JSON item of the first-writer-wins fixture:
description "A" with full stats. -/
def fwwItem : SigiItem where
  desc := some "A"
  author := some "authorA"
  stats := some { playCount := some 7, diggCount := some 8,
                  shareCount := some 9, commentCount := some 10 }
  videoCover := some "coverA"
  challenges := [some "tagA"]

/-- The spec's first-writer-wins fixture: the primary JSON carries
description "A" while the meta description would yield "B". -/
def fwwPage : DetailPage where
  title := "B2 | TikTok"
  content := "<html></html>"
  sigiItems := some [fwwItem]
  univItem := some { desc := some "U", nickname := some "nickU",
                     stats := none, videoCover := none, challenges := [] }
  metaDescription := some "B on TikTok"
  e2eDesc := some "B3"
  h1Text := some "B4"
  ogImage := some "ogB"
  authorDetail := some "authorB"
  usernameSpan := some "userB"
  likeCountEl := some "1.2K"
  commentCountEl := some "34"
  tagLinkTexts := ["#tagB"]
  commentEls := []
  commentContainers := []
  allPs := []

/-- Witness for C1 at the spec's fixture: the primary JSON populates
description "A", and the final record still carries "A" even though
the DOM fallback would have produced "B". -/
theorem cascade_first_writer_wins_witness :
    strFalsy (primaryData fwwPage "u" true).description = false ∧
    (finalData fwwPage "u" true).description = (primaryData fwwPage "u" true).description ∧
    (finalData fwwPage "u" true).description = some "A" :=
  ⟨by decide, ((cascade_first_writer_wins fwwPage "u" true).1 (by decide)).2,
    by decide⟩

/-- C7 — the comment harvester of `scrape_video_details` returns at
most 20 comments on every page state, in both the structured-selector
path and the generic-paragraph fallback path. -/
theorem comment_harvest_cap (p : DetailPage) : (harvestComments p).length ≤ 20 := by
  unfold harvestComments
  dsimp only
  split <;> split <;>
    exact le_trans (List.length_filterMap_le _ _) (List.length_take_le _ _)

/-! ## Bot-challenge retry behaviour (C2) -/

/-- A page state that always presents the bot challenge: its title
contains "verify". -/
def challengePage : DetailPage where
  title := "Please verify to continue"
  content := "<html><body>robot check</body></html>"
  sigiItems := none
  univItem := none
  metaDescription := none
  e2eDesc := none
  h1Text := none
  ogImage := none
  authorDetail := none
  usernameSpan := none
  likeCountEl := none
  commentCountEl := none
  tagLinkTexts := []
  commentEls := []
  commentContainers := []
  allPs := []

/-- An environment in which every navigation attempt succeeds but loads
the challenge page. -/
def challengeEnv : DetailEnv where
  attempts := fun _ => challengePage
  navErr := fun _ => false

/-- C2 counterexample: when the bot challenge is detected on every
attempt, `scrape_video_details` does make exactly 3 navigation attempts
(`max_retries = 2` plus the first) — but it then falls through the
exhausted `for` loop into extraction and returns a record, not `None`:
the claimed Failed outcome does not occur. -/
theorem bot_challenge_no_failed_outcome :
    (scrape_video_details challengeEnv "https://www.tiktok.com/@a/video/1").2 = 3 ∧
    (scrape_video_details challengeEnv "https://www.tiktok.com/@a/video/1").1.isSome = true :=
  ⟨by decide, by decide⟩

/-- C2 (amended) — bounded bot-challenge retry with fall-through: when
every attempt succeeds navigationally but shows the challenge,
`scrape_video_details` performs exactly `max_retries + 1 = 3`
navigation attempts and then proceeds to extraction against the final
attempt's page, returning a best-effort record; `None` arises only from
an exception on the final attempt, not from challenge exhaustion. -/
theorem bot_challenge_retry_exhaustion (env : DetailEnv) (url : String)
    (hnav : ∀ k, k < 3 → env.navErr k = false)
    (hcap : ∀ k, k < 3 → isCaptcha (env.attempts k) = true) :
    (scrape_video_details env url).2 = 3 ∧
    (scrape_video_details env url).1 =
      some { finalData (env.attempts 2) url true with
             comments := harvestComments (env.attempts 2) } := by
  have h0 := hnav 0 (by omega)
  have h1 := hnav 1 (by omega)
  have h2 := hnav 2 (by omega)
  have c0 := hcap 0 (by omega)
  have c1 := hcap 1 (by omega)
  have c2 := hcap 2 (by omega)
  have hr : navLoop env 2 (List.range 3) false 0 = .finished 2 true 3 := by
    have hl : List.range 3 = [0, 1, 2] := rfl
    rw [hl]
    unfold navLoop
    rw [h0, c0]
    unfold navLoop
    rw [h1, c1]
    unfold navLoop
    rw [h2, c2]
    simp [navLoop]
  unfold scrape_video_details
  dsimp only
  rw [hr]
  exact ⟨rfl, rfl⟩

/-- Witness for the amended C2: the always-challenged environment
satisfies the hypotheses, and the run makes exactly 3 attempts. -/
theorem bot_challenge_retry_exhaustion_witness :
    (∀ k, k < 3 → challengeEnv.navErr k = false) ∧
    (∀ k, k < 3 → isCaptcha (challengeEnv.attempts k) = true) ∧
    (scrape_video_details challengeEnv "u").2 = 3 := by
  have hcap : ∀ k, k < 3 → isCaptcha (challengeEnv.attempts k) = true :=
    fun _ _ => (by decide : isCaptcha challengePage = true)
  have h := bot_challenge_retry_exhaustion challengeEnv "u"
    (fun _ _ => rfl) hcap
  exact ⟨fun _ _ => rfl, hcap, h.1⟩

/-! ## Hashtag fallback in the resolver (C5) -/

/-- C5 — when the primary search page yields zero links, the resolver
navigates to the hashtag URL (keyword with spaces stripped) and repeats
the collect-and-deduplicate steps against it; an empty final list is an
ordinary return value. -/
theorem hashtag_fallback (pages : String → List (Option String))
    (keyword : String) (limit : Nat)
    (h : (collectLinks (pages (search_url keyword))).dedup = []) :
    (search_videos pages keyword limit).visited =
      [search_url keyword, tag_url keyword] ∧
    (search_videos pages keyword limit).links =
      ((collectLinks (pages (tag_url keyword))).dedup).take limit ∧
    tag_url keyword = "https://www.tiktok.com/tag/" ++ replaceSpaces keyword "" := by
  unfold search_videos
  dsimp only
  rw [h]
  refine ⟨?_, ?_, rfl⟩
  · simp only [List.isEmpty_nil, if_true, List.nil_append]
    split <;> rfl
  · simp only [List.isEmpty_nil, if_true, List.nil_append]
    split
    case isTrue h2 =>
      cases hd : (collectLinks (pages (tag_url keyword))).dedup with
      | nil => simp
      | cons a as => rw [hd] at h2; simp at h2
    case isFalse h2 => rfl

/-- The C5 witness environment: an empty search page, one video link
on the hashtag page. -/
def c5pages : String → List (Option String) := fun u =>
  if u = tag_url "my cats" then [some "https://www.tiktok.com/@z/video/99", none]
  else []

/-- Witness for C5: with zero primary links the resolver visits the
hashtag URL and returns the links collected there. -/
theorem hashtag_fallback_witness :
    (collectLinks (c5pages (search_url "my cats"))).dedup = [] ∧
    (search_videos c5pages "my cats" 3).visited =
      [search_url "my cats", tag_url "my cats"] ∧
    (search_videos c5pages "my cats" 3).links =
      ["https://www.tiktok.com/@z/video/99"] := by
  have h := hashtag_fallback c5pages "my cats" 3 (by decide)
  exact ⟨by decide, h.1, by rw [h.2.1]; decide⟩

/-! ## Orchestrator counting lemmas -/

/-- The resolver returns at most `limit` links. -/
theorem search_links_length_le (pages : String → List (Option String))
    (keyword : String) (limit : Nat) :
    (search_videos pages keyword limit).links.length ≤ limit := by
  unfold search_videos
  dsimp only
  split
  · split
    · simp
    · exact List.length_take_le _ _
  · exact List.length_take_le _ _

/-- One loop iteration adds at most one to `scraped + skipped`. -/
theorem processUrl_count (env : OrchEnv) (keyword : String) (st : LoopState)
    (url : String) :
    (processUrl env keyword st url).1.scraped + (processUrl env keyword st url).1.skipped ≤
      st.scraped + st.skipped + 1 := by
  unfold processUrl
  dsimp only
  repeat' split
  all_goals dsimp only
  all_goals omega

/-- The whole loop adds at most the number of URLs to
`scraped + skipped`. -/
theorem processUrls_count (env : OrchEnv) (keyword : String) :
    ∀ (urls : List String) (st : LoopState),
      (processUrls env keyword urls st).1.scraped +
          (processUrls env keyword urls st).1.skipped ≤
        st.scraped + st.skipped + urls.length := by
  intro urls
  induction urls with
  | nil =>
    intro st
    dsimp [processUrls]
    omega
  | cons u rest ih =>
    intro st
    unfold processUrls
    have hstep := processUrl_count env keyword st u
    cases hp : processUrl env keyword st u with
    | mk st' raised =>
      rw [hp] at hstep
      dsimp only at hstep
      cases raised with
      | true =>
        dsimp only
        simp only [List.length_cons]
        omega
      | false =>
        dsimp only
        have := ih st'
        simp only [List.length_cons]
        omega

/-- One loop iteration preserves the invariant
`|video_ids| = scraped + skipped`. -/
theorem processUrl_ids_len (env : OrchEnv) (keyword : String) (st : LoopState)
    (url : String) (h : st.video_ids.length = st.scraped + st.skipped) :
    (processUrl env keyword st url).1.video_ids.length =
      (processUrl env keyword st url).1.scraped +
        (processUrl env keyword st url).1.skipped := by
  unfold processUrl
  dsimp only
  repeat' split
  all_goals dsimp only
  all_goals try simp only [List.length_append, List.length_cons, List.length_nil]
  all_goals omega

/-- The loop preserves the invariant `|video_ids| = scraped + skipped`. -/
theorem processUrls_ids_len (env : OrchEnv) (keyword : String) :
    ∀ (urls : List String) (st : LoopState),
      st.video_ids.length = st.scraped + st.skipped →
      (processUrls env keyword urls st).1.video_ids.length =
        (processUrls env keyword urls st).1.scraped +
          (processUrls env keyword urls st).1.skipped := by
  intro urls
  induction urls with
  | nil =>
    intro st h
    dsimp [processUrls]
    exact h
  | cons u rest ih =>
    intro st h
    unfold processUrls
    have hstep := processUrl_ids_len env keyword st u h
    cases hp : processUrl env keyword st u with
    | mk st' raised =>
      rw [hp] at hstep
      dsimp only at hstep
      cases raised with
      | true => exact hstep
      | false => exact ih st' hstep

/-- C3 — orchestrator count invariant: any summary returned by
`scrape_and_save` satisfies `scraped + skipped ≤ found`, `found` is the
resolver's returned candidate count, and that count is capped at the
requested maximum. -/
theorem orchestrator_counts (env : OrchEnv) (keyword : String)
    (max_videos : Nat) (haveScraper : Bool) (s : Summary)
    (h : (scrape_and_save env keyword max_videos haveScraper).summary = some s) :
    s.scraped + s.skipped ≤ s.found ∧
    s.found = (search_videos env.pages keyword max_videos).links.length ∧
    (search_videos env.pages keyword max_videos).links.length ≤ max_videos := by
  refine ?_
  unfold scrape_and_save at h
  dsimp only at h
  split at h
  · simp at h
  · split at h
    case isTrue hempty =>
      rw [Option.some_inj] at h
      subst h
      refine ⟨by dsimp only; omega, ?_, search_links_length_le env.pages keyword max_videos⟩
      dsimp only
      rw [List.isEmpty_iff] at hempty
      rw [hempty]
      rfl
    case isFalse hempty =>
      split at h
      · simp at h
      case h_2 st raised heq =>
        rw [Option.some_inj] at h
        subst h
        have hcount := processUrls_count env keyword
          (search_videos env.pages keyword max_videos).links initLoopState
        rw [heq] at hcount
        dsimp only [initLoopState] at hcount
        exact ⟨by dsimp only; omega,
          rfl, search_links_length_le env.pages keyword max_videos⟩

/-- Details record used by the orchestrator witnesses: a successful
scrape with one comment. -/
def c3vd : VideoData where
  url := "u"
  screenshot := false
  description := some "d"
  author := some "a"
  stats := none
  thumbnail := none
  hashtags := none
  comments := ["nice"]

/-- C3 witness environment: two fresh-looking links on the search page,
one of them already known to persistence. -/
def c3env : OrchEnv where
  pages := fun u =>
    if u = search_url "cats" then
      [some "https://www.tiktok.com/@a/video/101",
       some "https://www.tiktok.com/@b/video/202"]
    else []
  searchErr := false
  details := fun _ => some c3vd
  raisedAt := fun _ => false
  lookup := fun tid => if tid = "202" then some "already-202" else none
  insert_video := fun r => some ("new-" ++ r.tiktok_id)

/-- The summary the C3 witness run returns. -/
def c3summary : Summary where
  keyword := "cats"
  found := 2
  scraped := 1
  skipped := 1
  video_ids := ["new-101", "already-202"]

/-- Witness for C3: a concrete run returns a summary satisfying the
count invariant. -/
theorem orchestrator_counts_witness :
    (scrape_and_save c3env "cats" 3 false).summary = some c3summary ∧
    (c3summary.scraped + c3summary.skipped ≤ c3summary.found ∧
      c3summary.found = (search_videos c3env.pages "cats" 3).links.length ∧
      (search_videos c3env.pages "cats" 3).links.length ≤ 3) :=
  ⟨by decide, orchestrator_counts c3env "cats" 3 false c3summary (by decide)⟩

/-- C4 — idempotence on already-seen content: when the URL's extracted
ID is already in the persistence store, the loop iteration increments
`skipped` (not `scraped`), performs no insert call, appends the
existing record's id to `video_ids`, and raises nothing. -/
theorem skip_already_seen (env : OrchEnv) (keyword : String) (st : LoopState)
    (url tiktok_id existingId : String)
    (h1 : extract_tiktok_id url = some tiktok_id)
    (h2 : env.lookup tiktok_id = some existingId) :
    processUrl env keyword st url =
      ({ st with skipped := st.skipped + 1,
                 video_ids := st.video_ids ++ [existingId] }, false) := by
  unfold processUrl
  rw [h1]
  dsimp only
  rw [h2]

/-- C4 witness environment: the store already holds id 222. -/
def c4env : OrchEnv where
  pages := fun _ => []
  searchErr := false
  details := fun _ => some c3vd
  raisedAt := fun _ => false
  lookup := fun tid => if tid = "222" then some "id-222" else none
  insert_video := fun r => some ("new-" ++ r.tiktok_id)

/-- Witness for C4 at a concrete already-seen URL. -/
theorem skip_already_seen_witness :
    extract_tiktok_id "https://www.tiktok.com/@u/video/222" = some "222" ∧
    c4env.lookup "222" = some "id-222" ∧
    processUrl c4env "k" initLoopState "https://www.tiktok.com/@u/video/222" =
      ({ initLoopState with skipped := 1, video_ids := ["id-222"] }, false) :=
  ⟨by decide, by decide,
    skip_already_seen c4env "k" initLoopState
      "https://www.tiktok.com/@u/video/222" "222" "id-222"
      (by decide) (by decide)⟩

/-- C10 — `video_ids` accounting: every returned summary has
`|video_ids| = scraped + skipped`, and a URL with an unparseable ID, a
failed extraction, or a failed insert contributes to neither counter
nor the list. -/
theorem video_ids_accounting (env : OrchEnv) (keyword : String)
    (max_videos : Nat) (haveScraper : Bool) :
    (∀ s : Summary,
      (scrape_and_save env keyword max_videos haveScraper).summary = some s →
      s.video_ids.length = s.scraped + s.skipped) ∧
    (∀ (st : LoopState) (url : String), extract_tiktok_id url = none →
      processUrl env keyword st url = (st, false)) ∧
    (∀ (st : LoopState) (url tiktok_id : String),
      extract_tiktok_id url = some tiktok_id →
      env.lookup tiktok_id = none →
      env.raisedAt url = false →
      env.details url = none →
      processUrl env keyword st url = (st, false)) ∧
    (∀ (st : LoopState) (url tiktok_id : String) (vd : VideoData),
      extract_tiktok_id url = some tiktok_id →
      env.lookup tiktok_id = none →
      env.raisedAt url = false →
      env.details url = some vd →
      env.insert_video (build_video_record keyword tiktok_id url vd) = none →
      (processUrl env keyword st url).1.scraped = st.scraped ∧
      (processUrl env keyword st url).1.skipped = st.skipped ∧
      (processUrl env keyword st url).1.video_ids = st.video_ids) := by
  refine ⟨?_, ?_, ?_, ?_⟩
  · intro s h
    unfold scrape_and_save at h
    dsimp only at h
    split at h
    · simp at h
    · split at h
      case isTrue hempty =>
        rw [Option.some_inj] at h
        subst h
        rfl
      case isFalse hempty =>
        split at h
        · simp at h
        case h_2 st raised heq =>
          rw [Option.some_inj] at h
          subst h
          have hlen := processUrls_ids_len env keyword
            (search_videos env.pages keyword max_videos).links initLoopState rfl
          rw [heq] at hlen
          exact hlen
  · intro st url h
    unfold processUrl
    rw [h]
  · intro st url tiktok_id h1 h2 h3 h4
    unfold processUrl
    rw [h1]
    dsimp only
    rw [h2]
    try dsimp only
    rw [h3]
    try dsimp only
    rw [h4]
    rfl
  · intro st url tiktok_id vd h1 h2 h3 h4 h5
    unfold processUrl
    rw [h1]
    dsimp only
    rw [h2]
    try dsimp only
    rw [h3]
    try dsimp only
    rw [h4]
    dsimp only
    rw [h5]
    exact ⟨rfl, rfl, rfl⟩

/-- Details record for the C10 witness: successful scrape, no
comments. -/
def c10vd : VideoData where
  url := "u"
  screenshot := false
  description := some "d"
  author := some "a"
  stats := none
  thumbnail := none
  hashtags := none
  comments := []

/-- C10 witness environment: one insertable URL, one already-seen URL,
one URL with an unparseable ID, one failing extraction, and one
failing insert. -/
def c10env : OrchEnv where
  pages := fun u =>
    if u = search_url "dogs" then
      [some "https://www.tiktok.com/@a/video/301",
       some "https://www.tiktok.com/@b/video/302",
       some "https://www.tiktok.com/@c/video/abc",
       some "https://www.tiktok.com/@d/video/304",
       some "https://www.tiktok.com/@e/video/305"]
    else []
  searchErr := false
  details := fun u =>
    if u = "https://www.tiktok.com/@d/video/304" then none else some c10vd
  raisedAt := fun _ => false
  lookup := fun tid => if tid = "302" then some "old-302" else none
  insert_video := fun r =>
    if r.tiktok_id = "305" then none else some ("new-" ++ r.tiktok_id)

/-- The summary the C10 witness run returns. -/
def c10summary : Summary where
  keyword := "dogs"
  found := 5
  scraped := 1
  skipped := 1
  video_ids := ["new-301", "old-302"]

/-- Witness for C10: the concrete five-URL run returns exactly one
scraped and one skipped id, and the accounting identity holds. -/
theorem video_ids_accounting_witness :
    (scrape_and_save c10env "dogs" 5 false).summary = some c10summary ∧
    c10summary.video_ids.length = c10summary.scraped + c10summary.skipped :=
  ⟨by decide,
    (video_ids_accounting c10env "dogs" 5 false).1 c10summary (by decide)⟩

/-- C8 — scoped session release: a run that created its own scraper
invokes `stop()` exactly once on every exit path (resolver exception,
zero candidates, per-URL exception, normal return — the environment
quantifies over all of them), and `stop()` closes context, browser and
driver in that order while tolerating never-started components. -/
theorem scoped_stop (env : OrchEnv) (keyword : String) (max_videos : Nat) :
    (scrape_and_save env keyword max_videos false).stops = 1 ∧
    stop { context := true, browser := true, playwright := true } =
      ["context.close", "browser.close", "playwright.stop"] ∧
    stop { context := false, browser := false, playwright := false } = [] ∧
    ∀ s : Session,
      (stop s).Sublist ["context.close", "browser.close", "playwright.stop"] := by
  refine ⟨?_, rfl, rfl, ?_⟩
  · unfold scrape_and_save
    dsimp only
    split
    · rfl
    · split
      · rfl
      · split <;> rfl
  · intro s
    rcases s with ⟨c, b, pl⟩
    cases c <;> cases b <;> cases pl <;> decide

/-! ## Unavailability sentinels and the persisted record (C6) -/

/-- A page with no embedded JSON and no DOM stat elements: the source
supplies no engagement counters at all. -/
def c6page : DetailPage where
  title := "Cute cat video"
  content := "<html>no embedded state</html>"
  sigiItems := none
  univItem := none
  metaDescription := some "watch this on TikTok"
  e2eDesc := none
  h1Text := none
  ogImage := none
  authorDetail := none
  usernameSpan := none
  likeCountEl := none
  commentCountEl := none
  tagLinkTexts := []
  commentEls := []
  commentContainers := []
  allPs := []

/-- Environment that loads `c6page` on the first attempt. -/
def c6env : DetailEnv where
  attempts := fun _ => c6page
  navErr := fun _ => false

/-- The record `scrape_video_details` produces for `c6page`: "N/A"
string sentinels for the counters, marker strings for author. -/
def c6vd : VideoData where
  url := "https://www.tiktok.com/@c/video/7"
  screenshot := true
  description := some "watch this"
  author := some "Unknown Author"
  stats := some { views := some (.str "N/A"), likes := some (.str "N/A"),
                  shares := none, comments := some (.str "N/A") }
  thumbnail := none
  hashtags := some []
  comments := []

/-- C6 counterexample: for a page supplying no counters, the scraper
record carries the "N/A" sentinels, but the persisted `video_record`
built from it stores the counters as integer 0 — indistinguishable
from a genuine zero — and an embedded-JSON item without a counter also
defaults to integer 0. -/
theorem unavailable_counters_recorded_as_zero :
    (scrape_video_details c6env "https://www.tiktok.com/@c/video/7").1 = some c6vd ∧
    c6vd.stats = some { views := some (.str "N/A"), likes := some (.str "N/A"),
                        shares := none, comments := some (.str "N/A") } ∧
    (build_video_record "cats" "7" "https://www.tiktok.com/@c/video/7" c6vd).views_count = 0 ∧
    (build_video_record "cats" "7" "https://www.tiktok.com/@c/video/7" c6vd).likes_count = 0 ∧
    (statsFromJson none).views = some (.int 0) :=
  ⟨by decide, by decide, by decide, by decide, by decide⟩

/-- C6 (amended) — the scraper-level record does use explicit
sentinels ("N/A" strings for DOM-unavailable counters, distinguishable
from integer 0), but the persisted record coerces every non-integer
counter to 0, and counters missing from embedded JSON default to
integer 0, so unavailable counters are stored as 0 downstream. -/
theorem unavailable_sentinels_and_coercion (p : DetailPage) (d : VideoData)
    (hlike : p.likeCountEl = none) (hcom : p.commentCountEl = none)
    (hst : d.stats = none) :
    (statsFallback p d).stats =
      some { views := some (.str "N/A"), likes := some (.str "N/A"),
             shares := none, comments := some (.str "N/A") } ∧
    StatVal.str "N/A" ≠ StatVal.int 0 ∧
    (∀ (kw tid url : String) (vd : VideoData) (st : StatsDict),
      vd.stats = some st → st.views = some (.str "N/A") →
      (build_video_record kw tid url vd).views_count = 0) ∧
    (statsFromJson none).views = some (.int 0) := by
  refine ⟨?_, by simp, ?_, rfl⟩
  · unfold statsFallback
    rw [if_pos hst, hlike, hcom]
    rfl
  · intro kw tid url vd st h1 h2
    unfold build_video_record statCoerce
    dsimp only
    rw [h1]
    dsimp only [Option.bind]
    rw [h2]

/-- Witness for the amended C6 at the concrete no-counter page. -/
theorem unavailable_sentinels_witness :
    (statsFallback c6page (initData "u")).stats =
      some { views := some (.str "N/A"), likes := some (.str "N/A"),
             shares := none, comments := some (.str "N/A") } ∧
    (build_video_record "k" "7" "u" c6vd).views_count = 0 :=
  ⟨(unavailable_sentinels_and_coercion c6page (initData "u") rfl rfl rfl).1,
    (unavailable_sentinels_and_coercion c6page (initData "u") rfl rfl rfl).2.2.1
      "k" "7" "u" c6vd _ rfl rfl⟩

/-! ## Non-termination of the legacy resolver (C9) -/

/-- The single video link the stubborn page keeps showing. -/
def stubbornUrl : String := "https://www.tiktok.com/@s/video/11"

/-- A legacy-resolver environment whose page shows the same single
video link no matter how often it is scrolled. -/
def stubbornEnv : LegacyEnv where
  waitFound := true
  pages := fun _ => [some stubbornUrl]

/-- Once the single available link is collected, every further pass of
the legacy `while` loop collects nothing new and scrolls again,
forever: no amount of fuel completes it. -/
theorem legacy_loop_stuck :
    ∀ (fuel scrolls : Nat),
      legacy_loop stubbornEnv.pages 2 fuel scrolls [stubbornUrl] = none := by
  intro fuel
  induction fuel with
  | zero => intro scrolls; rfl
  | succ n ih =>
    intro scrolls
    unfold legacy_loop
    have hc : legacy_collect 2 (stubbornEnv.pages scrolls) [stubbornUrl] =
        [stubbornUrl] :=
      (by decide : legacy_collect 2 [some stubbornUrl] [stubbornUrl] = [stubbornUrl])
    dsimp only
    rw [hc]
    exact ih (scrolls + 1)

/-- C9 — the legacy `search_videos` (src/scraper.py:39-72) does not
terminate on a page that never yields `limit` distinct links: with
`limit = 2` and one stubborn link, the scroll loop runs forever (the
call completes under no fuel bound), contradicting the bounded-blocking
claim; the backend resolver has no such loop. -/
theorem legacy_search_nonterminating :
    ∀ fuel : Nat, legacy_search_videos stubbornEnv 2 fuel = none := by
  intro fuel
  unfold legacy_search_videos
  cases fuel with
  | zero => rfl
  | succ n =>
    have h : legacy_loop stubbornEnv.pages 2 (n + 1) 0 [] = none := by
      unfold legacy_loop
      have hc : legacy_collect 2 (stubbornEnv.pages 0) [] = [stubbornUrl] :=
        (by decide : legacy_collect 2 [some stubbornUrl] [] = [stubbornUrl])
      dsimp only
      rw [hc]
      exact legacy_loop_stuck n 1
    rw [h]
    rfl

end TikTok
